import Mathlib

/-!
Verification of the AVRDisco-Web connection/state core.

The definitions below are a shallow embedding of the Python sources:
  - the response interpreter and state merge of
    src/async_avr_controller.py (_update_state_from_response),
  - the multi-command send loop (send_and_wait) shared by
    src/avr_controller.py and src/async_avr_controller.py,
  - the reconnect backoff loop (connect) shared by both controllers,
  - the transport read loop of src/telnet_client.py (read_until),
  - read_response of both controllers,
  - the subscriber notification loop (_notify_state_update).

Python strings are modelled through their character lists; machine I/O and
exceptions are modelled with explicit outcome values supplied as parameters.
-/

namespace AVRDisco

/-! ### Python string primitives -/

/-- Number of characters of a string (Python len). -/
def strLen (s : String) : Nat := s.toList.length

/-- Python s.startswith(p). -/
def pyStartsWith (s p : String) : Bool :=
  decide (s.toList.take p.toList.length = p.toList)

/-- Python slice s[a:b] (for a ≤ b), as a character list. -/
def pySliceCh (s : String) (a b : Nat) : List Char :=
  (s.toList.drop a).take (b - a)

/-- Python slice s[a:], as a string. -/
def pyDropStr (s : String) (a : Nat) : String :=
  String.mk (s.toList.drop a)

/-- Python cs.isdigit() for an ASCII character list: nonempty and all digits. -/
def pyIsDigitStr (cs : List Char) : Bool :=
  !cs.isEmpty && cs.all (fun c => c.isDigit)

/-- Python int(...) on a digit string. -/
def digitsVal (cs : List Char) : Nat :=
  cs.foldl (fun n c => n * 10 + (c.toNat - 48)) 0

/-- Python s.strip(). -/
def pyStrip (s : String) : String :=
  String.mk (((s.toList.dropWhile Char.isWhitespace).reverse.dropWhile
      Char.isWhitespace).reverse)

/-- Helper for Python s.split(sep) on a single separator character:
splits keeping empty segments. -/
def splitOnChar (sep : Char) : List Char → List (List Char)
  | [] => [[]]
  | c :: rest =>
    let r := splitOnChar sep rest
    if c = sep then [] :: r
    else
      match r with
      | [] => [[c]]
      | h :: t => (c :: h) :: t

/-- Python command.split(COMMAND_SEPARATOR) with COMMAND_SEPARATOR = newline. -/
def pySplit (s : String) : List String :=
  (splitOnChar (Char.ofNat 10) s.toList).map String.mk

/-! ### Device state (ReceiverState of src/async_avr_controller.py)

The datetime field last_updated is modelled as a Nat clock value; the
current time is passed in where the source calls datetime.now(). -/

/-- ReceiverState: tracked fields of the AV receiver. -/
@[ext] structure ReceiverState where
  power : Option Bool
  volume : Option Nat
  muted : Option Bool
  input_source : Option String
  surround_mode : Option String
  zone2_power : Option Bool
  zone2_volume : Option Nat
  zone2_muted : Option Bool
  last_updated : Nat
deriving DecidableEq, Repr

/-- The dataclass defaults: every field starts unknown. -/
def initialState : ReceiverState :=
  { power := none, volume := none, muted := none, input_source := none,
    surround_mode := none, zone2_power := none, zone2_volume := none,
    zone2_muted := none, last_updated := 0 }

/-! ### The response interpreter (_update_state_from_response)

Each rule below is one if-block of the source, applied to the pair
(state, updated flag) in the source order: power, volume, mute, input,
surround, zone2 power, zone2 volume, zone2 mute. -/

/-- Power state rule: PWON / PWSTANDBY. -/
def powerRule (response : String) (su : ReceiverState × Bool) :
    ReceiverState × Bool :=
  if response = "PWON" then ({ su.1 with power := some true }, true)
  else if response = "PWSTANDBY" then ({ su.1 with power := some false }, true)
  else su

/-- Volume rule: response starting with MV, length at least 3, slice [2:4]
all digits. -/
def volumeRule (response : String) (su : ReceiverState × Bool) :
    ReceiverState × Bool :=
  if pyStartsWith response "MV" && decide (3 ≤ strLen response) then
    let volStr := pySliceCh response 2 4
    if pyIsDigitStr volStr then
      ({ su.1 with volume := some (digitsVal volStr) }, true)
    else su
  else su

/-- Mute rule: MUON / MUOFF. -/
def muteRule (response : String) (su : ReceiverState × Bool) :
    ReceiverState × Bool :=
  if response = "MUON" then ({ su.1 with muted := some true }, true)
  else if response = "MUOFF" then ({ su.1 with muted := some false }, true)
  else su

/-- Input source rule: any SI-prefixed response. -/
def inputRule (response : String) (su : ReceiverState × Bool) :
    ReceiverState × Bool :=
  if pyStartsWith response "SI" then
    ({ su.1 with input_source := some (pyDropStr response 2) }, true)
  else su

/-- Surround mode rule: any MS-prefixed response. -/
def surroundRule (response : String) (su : ReceiverState × Bool) :
    ReceiverState × Bool :=
  if pyStartsWith response "MS" then
    ({ su.1 with surround_mode := some (pyDropStr response 2) }, true)
  else su

/-- Zone 2 power rule: Z2ON / Z2OFF. -/
def zone2PowerRule (response : String) (su : ReceiverState × Bool) :
    ReceiverState × Bool :=
  if response = "Z2ON" then ({ su.1 with zone2_power := some true }, true)
  else if response = "Z2OFF" then ({ su.1 with zone2_power := some false }, true)
  else su

/-- Zone 2 volume rule: Z2-prefixed, length at least 3, slice [2:4] all
digits. -/
def zone2VolumeRule (response : String) (su : ReceiverState × Bool) :
    ReceiverState × Bool :=
  if pyStartsWith response "Z2" && decide (3 ≤ strLen response) then
    let volStr := pySliceCh response 2 4
    if pyIsDigitStr volStr then
      ({ su.1 with zone2_volume := some (digitsVal volStr) }, true)
    else su
  else su

/-- Zone 2 mute rule: Z2MUON / Z2MUOFF. -/
def zone2MuteRule (response : String) (su : ReceiverState × Bool) :
    ReceiverState × Bool :=
  if response = "Z2MUON" then ({ su.1 with zone2_muted := some true }, true)
  else if response = "Z2MUOFF" then
    ({ su.1 with zone2_muted := some false }, true)
  else su

/-- The full rule chain of _update_state_from_response, in source order,
starting from updated = False. -/
def updateFields (s : ReceiverState) (response : String) :
    ReceiverState × Bool :=
  zone2MuteRule response
    (zone2VolumeRule response
      (zone2PowerRule response
        (surroundRule response
          (inputRule response
            (muteRule response
              (volumeRule response
                (powerRule response (s, false))))))))

/-- The merge step: run the rule chain, and if any rule fired, stamp
last_updated with the current time and notify (the returned Bool is
whether _notify_state_update was called). -/
def update_state_from_response (s : ReceiverState) (response : String)
    (now : Nat) : ReceiverState × Bool :=
  let su := updateFields s response
  if su.2 then ({ su.1 with last_updated := now }, true) else (su.1, false)

/-! ### Match predicates and per-field value functions
(spec-side characterizations of the rule chain) -/

/-- The power rule fires. -/
def powerMatch (r : String) : Bool :=
  decide (r = "PWON") || decide (r = "PWSTANDBY")

/-- The volume rule fires. -/
def mvMatch (r : String) : Bool :=
  pyStartsWith r "MV" && decide (3 ≤ strLen r) && pyIsDigitStr (pySliceCh r 2 4)

/-- The mute rule fires. -/
def muMatch (r : String) : Bool :=
  decide (r = "MUON") || decide (r = "MUOFF")

/-- The input source rule fires. -/
def siMatch (r : String) : Bool := pyStartsWith r "SI"

/-- The surround mode rule fires. -/
def msMatch (r : String) : Bool := pyStartsWith r "MS"

/-- The zone 2 power rule fires. -/
def z2pMatch (r : String) : Bool :=
  decide (r = "Z2ON") || decide (r = "Z2OFF")

/-- The zone 2 volume rule fires. -/
def z2vMatch (r : String) : Bool :=
  pyStartsWith r "Z2" && decide (3 ≤ strLen r) && pyIsDigitStr (pySliceCh r 2 4)

/-- The zone 2 mute rule fires. -/
def z2mMatch (r : String) : Bool :=
  decide (r = "Z2MUON") || decide (r = "Z2MUOFF")

/-- Some rule fires (the final value of the updated flag). -/
def anyMatch (r : String) : Bool :=
  powerMatch r || mvMatch r || muMatch r || siMatch r || msMatch r ||
    z2pMatch r || z2vMatch r || z2mMatch r

/-- Resulting power field. -/
def powerVal (r : String) (old : Option Bool) : Option Bool :=
  if r = "PWON" then some true
  else if r = "PWSTANDBY" then some false
  else old

/-- Resulting volume field. -/
def volumeVal (r : String) (old : Option Nat) : Option Nat :=
  if mvMatch r then some (digitsVal (pySliceCh r 2 4)) else old

/-- Resulting muted field. -/
def muteVal (r : String) (old : Option Bool) : Option Bool :=
  if r = "MUON" then some true
  else if r = "MUOFF" then some false
  else old

/-- Resulting input_source field. -/
def inputVal (r : String) (old : Option String) : Option String :=
  if siMatch r then some (pyDropStr r 2) else old

/-- Resulting surround_mode field. -/
def surroundVal (r : String) (old : Option String) : Option String :=
  if msMatch r then some (pyDropStr r 2) else old

/-- Resulting zone2_power field. -/
def z2pVal (r : String) (old : Option Bool) : Option Bool :=
  if r = "Z2ON" then some true
  else if r = "Z2OFF" then some false
  else old

/-- Resulting zone2_volume field. -/
def z2vVal (r : String) (old : Option Nat) : Option Nat :=
  if z2vMatch r then some (digitsVal (pySliceCh r 2 4)) else old

/-- Resulting zone2_muted field. -/
def z2mVal (r : String) (old : Option Bool) : Option Bool :=
  if r = "Z2MUON" then some true
  else if r = "Z2MUOFF" then some false
  else old

/-- Equality of the tracked device fields, ignoring the last_updated stamp. -/
def fieldsEq (a b : ReceiverState) : Prop :=
  a.power = b.power ∧ a.volume = b.volume ∧ a.muted = b.muted ∧
  a.input_source = b.input_source ∧ a.surround_mode = b.surround_mode ∧
  a.zone2_power = b.zone2_power ∧ a.zone2_volume = b.zone2_volume ∧
  a.zone2_muted = b.zone2_muted

instance (a b : ReceiverState) : Decidable (fieldsEq a b) := by
  unfold fieldsEq; infer_instance

/-- A state whose power is already known on, for exercising the merge. -/
def statePowerOn : ReceiverState := { initialState with power := some true }

/-! ### send_and_wait (src/avr_controller.py and src/async_avr_controller.py)

The loop splits on the command separator, strips each segment, skips empty
ones, and for each remaining token calls send_command, then sleeps and calls
read_response. The transport is abstracted by an environment giving, for the
k-th send, the outcome of send_command and of the following read_response. -/

/-- Outcome of one send iteration: the (success, message) pair returned by
send_command and the optional string returned by the read_response that
follows it. -/
structure SendOutcome where
  ok : Bool
  msg : String
  resp : Option String
deriving Repr

/-- Python chr(59)+chr(32) join: the separator placed between collected
responses. -/
def joinSemi : List String → String
  | [] => ""
  | [x] => x
  | x :: y :: xs => x ++ "; " ++ joinSemi (y :: xs)

/-- The final success message of send_and_wait. -/
def sawMsg (rs : List String) : String :=
  if rs = [] then "Commands sent" else joinSemi rs

/-- The stripped nonempty tokens of a segment list, in order. -/
def toksOfList (l : List String) : List String :=
  (l.map pyStrip).filter (fun t => t ≠ "")

/-- The tokens send_and_wait will actually send for a command string. -/
def tokensOf (command : String) : List String :=
  toksOfList (pySplit command)

/-- The send_and_wait loop. Arguments: the remaining segments, the index of
the next send in the environment, the collected responses, and the trace of
tokens sent so far. Returns the (success, message) result and the send
trace. -/
def sendAndWaitGo (env : Nat → SendOutcome) :
    List String → Nat → List String → List String → (Bool × String) × List String
  | [], _, responses, sent => ((true, sawMsg responses), sent)
  | c :: rest, i, responses, sent =>
    let cmd := pyStrip c
    if cmd = "" then sendAndWaitGo env rest i responses sent
    else
      let o := env i
      if o.ok then
        let responses' :=
          match o.resp with
          | some r => if r = "" then responses else responses ++ [r]
          | none => responses
        sendAndWaitGo env rest (i + 1) responses' (sent ++ [cmd])
      else ((false, o.msg), sent ++ [cmd])

/-- send_and_wait: split the command on the separator and run the loop. -/
def send_and_wait (env : Nat → SendOutcome) (command : String) :
    (Bool × String) × List String :=
  sendAndWaitGo env (pySplit command) 0 [] []

/-- The responses that k consecutive successful iterations starting at
environment index i collect (nonempty reads only). -/
def respList (env : Nat → SendOutcome) : Nat → Nat → List String
  | _, 0 => []
  | i, k + 1 =>
    let rest := respList env (i + 1) k
    match (env i).resp with
    | some r => if r = "" then rest else r :: rest
    | none => rest

/-- Environment used to exercise send_and_wait at a concrete input: every
send succeeds and only the first read returns data. -/
def envTwoSends : Nat → SendOutcome :=
  fun i => ⟨true, "Command sent", if i = 0 then some "MV50" else none⟩

/-! ### connect retry backoff (both controllers)

Both connect implementations share the same loop: attempts = 0,
delay = INITIAL_RETRY_DELAY; while attempts ≤ max_retries: try open; on
failure attempts += 1, and if retry and attempts ≤ max_retries, sleep delay
and set delay = min(delay * 2, MAX_RETRY_DELAY). The run modelled here is
the one the claim quantifies over: retry = True and every open attempt
fails. Delays are exact rationals (0.5 and 5.0 are exactly representable). -/

/-- INITIAL_RETRY_DELAY = 0.5 seconds. -/
def INITIAL_RETRY_DELAY : ℚ := 1 / 2

/-- MAX_RETRY_DELAY = 5.0 seconds. -/
def MAX_RETRY_DELAY : ℚ := 5

/-- The connect while-loop when every open attempt fails, with retry = True.
Returns the final value of the attempts counter (which becomes retry_count)
and the list of delays slept, in order. -/
def connectGo (m : Nat) (attempts : Nat) (delay : ℚ) : Nat × List ℚ :=
  if h : attempts ≤ m then
    if attempts + 1 ≤ m then
      let r := connectGo m (attempts + 1) (min (delay * 2) MAX_RETRY_DELAY)
      (r.1, delay :: r.2)
    else connectGo m (attempts + 1) delay
  else (attempts, [])
termination_by m + 1 - attempts
decreasing_by all_goals omega

/-- A run of connect(retry=True) in which every open attempt fails:
the boolean result (False), the final retry_count, and the slept delays. -/
def connectAllFailRun (maxRetries : Nat) : Bool × Nat × List ℚ :=
  let r := connectGo maxRetries 0 INITIAL_RETRY_DELAY
  (false, r.1, r.2)

/-- Closed form of the delay trace: each slept delay, then double and cap. -/
def delaysFrom (d : ℚ) : Nat → List ℚ
  | 0 => []
  | n + 1 => d :: delaysFrom (min (d * 2) MAX_RETRY_DELAY) n

/-! ### Transport read_until (src/telnet_client.py)

The socket is abstracted by a trace of recv outcomes: a data chunk, an
empty read (peer closed), or a raised timeout. The loop checks the buffer
for the delimiter before each recv; an exhausted trace means no further
data arrives inside the window, which recv reports as a timeout. -/

/-- One outcome of socket.recv. -/
inductive RecvEvent where
  | chunk (data : List Char)
  | eofEv
  | timeoutEv
deriving DecidableEq, Repr

/-- Result of read_until: returned bytes, raised TimeoutError, or raised
ConnectionError. -/
inductive ReadResult where
  | ok (data : List Char)
  | timeoutError
  | connectionError
deriving DecidableEq, Repr

/-- The needle matches at the head of the haystack. -/
def headMatches : List Char → List Char → Bool
  | [], _ => true
  | _ :: _, [] => false
  | a :: as, b :: bs => a == b && headMatches as bs

/-- Python bytes containment: needle occurs somewhere in the haystack. -/
def isSubstring (needle : List Char) : List Char → Bool
  | [] => headMatches needle []
  | c :: t => headMatches needle (c :: t) || isSubstring needle t

/-- The read_until while-loop: each iteration first tests whether the
delimiter is in the buffer (returning the buffer if so), then performs one
recv; a data chunk extends the buffer and the loop continues; an empty
chunk breaks the loop and the buffer is returned; a raised timeout
propagates. An exhausted trace means no further data arrives inside the
window, which recv reports as a timeout. -/
def read_until_loop (delimiter : List Char) :
    List RecvEvent → List Char → ReadResult
  | [], buf =>
    if isSubstring delimiter buf then ReadResult.ok buf
    else ReadResult.timeoutError
  | RecvEvent.chunk d :: rest, buf =>
    if isSubstring delimiter buf then ReadResult.ok buf
    else read_until_loop delimiter rest (buf ++ d)
  | RecvEvent.eofEv :: _, buf =>
    ReadResult.ok buf
  | RecvEvent.timeoutEv :: _, buf =>
    if isSubstring delimiter buf then ReadResult.ok buf
    else ReadResult.timeoutError

/-- TelnetClient.read_until: ConnectionError when there is no socket,
otherwise the loop starting from an empty buffer. -/
def read_until (connected : Bool) (delimiter : List Char)
    (events : List RecvEvent) : ReadResult :=
  if connected then read_until_loop delimiter events []
  else ReadResult.connectionError

/-- Concatenated data of the chunk events before the first non-chunk
event. -/
def chunksBefore : List RecvEvent → List Char
  | [] => []
  | RecvEvent.chunk d :: rest => d ++ chunksBefore rest
  | _ :: _ => []

/-- The first non-chunk event of the trace, if any. -/
def firstSignal : List RecvEvent → Option RecvEvent
  | [] => none
  | RecvEvent.chunk _ :: rest => firstSignal rest
  | e :: _ => some e

/-! ### read_response (both controllers)

The controller state relevant to read_response, and the outcome of the
underlying read_until call. The sync controller catches every exception in
one handler that clears the connection; the async controller passes on
TimeoutError and clears the connection only for other exceptions. -/

/-- The controller fields read_response touches. -/
structure ControllerSt where
  connected : Bool
  debug_mode : Bool
  hasConnection : Bool
deriving DecidableEq, Repr

/-- Outcome of the transport read inside read_response. -/
inductive ReadAttempt where
  | ok (resp : String)
  | timeoutErr
  | connErr (msg : String)
deriving Repr

/-- AVRController.read_response (sync, src/avr_controller.py). -/
def read_response_sync (c : ControllerSt) (att : ReadAttempt) :
    Option String × ControllerSt :=
  if c.connected = false then (none, c)
  else if c.debug_mode then (some "DEBUG: Simulated response", c)
  else if c.hasConnection = false then (none, c)
  else
    match att with
    | ReadAttempt.ok resp =>
      if resp = "" then (none, c) else (some (pyStrip resp), c)
    | ReadAttempt.timeoutErr =>
      (none, { c with connected := false, hasConnection := false })
    | ReadAttempt.connErr _ =>
      (none, { c with connected := false, hasConnection := false })

/-- AsyncAVRController.read_response (src/async_avr_controller.py).
asyncio.TimeoutError is caught and ignored; only other exceptions clear the
connection. (The decoded token is also fed to the interpreter there; that
path is covered by update_state_from_response.) -/
def read_response_async (c : ControllerSt) (att : ReadAttempt) :
    Option String × ControllerSt :=
  if c.connected = false then (none, c)
  else if c.debug_mode then (some "DEBUG: Simulated response", c)
  else if c.hasConnection = false then (none, c)
  else
    match att with
    | ReadAttempt.ok resp =>
      if resp = "" then (none, c) else (some (pyStrip resp), c)
    | ReadAttempt.timeoutErr => (none, c)
    | ReadAttempt.connErr _ =>
      (none, { c with connected := false, hasConnection := false })

/-! ### Subscriber notification (_notify_state_update)

Each callback either returns normally or raises; the loop wraps every call
in try/except, logs a failure, and continues. The registry list is not
modified by the loop. -/

/-- A registered subscriber: an identifier and what its callback does when
invoked (returns, or raises with a message). -/
structure Subscriber where
  id : Nat
  behavior : Except String Unit

/-- The for-loop of _notify_state_update: every callback is invoked; a
raising callback is caught and logged, and iteration continues. Returns
the identifiers invoked, in order. -/
def notifyLoopCalled : List Subscriber → List Nat
  | [] => []
  | s :: rest =>
    match s.behavior with
    | Except.ok _ => s.id :: notifyLoopCalled rest
    | Except.error _ => s.id :: notifyLoopCalled rest

/-- _notify_state_update: the invocation trace and the registry after the
pass (the loop never mutates the callback list). -/
def notify_state_update (subs : List Subscriber) : List Nat × List Subscriber :=
  (notifyLoopCalled subs, subs)

/-! ## Characterization of the rule chain -/

theorem powerRule_spec (r : String) (su : ReceiverState × Bool) :
    powerRule r su =
      ({ su.1 with power := powerVal r su.1.power }, su.2 || powerMatch r) := by
  by_cases h1 : r = "PWON"
  · simp [powerRule, powerVal, powerMatch, h1]
  · by_cases h2 : r = "PWSTANDBY" <;>
      simp [powerRule, powerVal, powerMatch, h1, h2]

theorem volumeRule_spec (r : String) (su : ReceiverState × Bool) :
    volumeRule r su =
      ({ su.1 with volume := volumeVal r su.1.volume }, su.2 || mvMatch r) := by
  by_cases h1 : (pyStartsWith r "MV" && decide (3 ≤ strLen r)) = true
  · by_cases h2 : pyIsDigitStr (pySliceCh r 2 4) = true <;>
      simp [volumeRule, volumeVal, mvMatch, h1, h2]
  · simp only [Bool.not_eq_true] at h1
    simp [volumeRule, volumeVal, mvMatch, h1]

theorem muteRule_spec (r : String) (su : ReceiverState × Bool) :
    muteRule r su =
      ({ su.1 with muted := muteVal r su.1.muted }, su.2 || muMatch r) := by
  by_cases h1 : r = "MUON"
  · simp [muteRule, muteVal, muMatch, h1]
  · by_cases h2 : r = "MUOFF" <;>
      simp [muteRule, muteVal, muMatch, h1, h2]

theorem inputRule_spec (r : String) (su : ReceiverState × Bool) :
    inputRule r su =
      ({ su.1 with input_source := inputVal r su.1.input_source },
       su.2 || siMatch r) := by
  by_cases h : pyStartsWith r "SI" = true <;>
    simp [inputRule, inputVal, siMatch, h]

theorem surroundRule_spec (r : String) (su : ReceiverState × Bool) :
    surroundRule r su =
      ({ su.1 with surround_mode := surroundVal r su.1.surround_mode },
       su.2 || msMatch r) := by
  by_cases h : pyStartsWith r "MS" = true <;>
    simp [surroundRule, surroundVal, msMatch, h]

theorem zone2PowerRule_spec (r : String) (su : ReceiverState × Bool) :
    zone2PowerRule r su =
      ({ su.1 with zone2_power := z2pVal r su.1.zone2_power },
       su.2 || z2pMatch r) := by
  by_cases h1 : r = "Z2ON"
  · simp [zone2PowerRule, z2pVal, z2pMatch, h1]
  · by_cases h2 : r = "Z2OFF" <;>
      simp [zone2PowerRule, z2pVal, z2pMatch, h1, h2]

theorem zone2VolumeRule_spec (r : String) (su : ReceiverState × Bool) :
    zone2VolumeRule r su =
      ({ su.1 with zone2_volume := z2vVal r su.1.zone2_volume },
       su.2 || z2vMatch r) := by
  by_cases h1 : (pyStartsWith r "Z2" && decide (3 ≤ strLen r)) = true
  · by_cases h2 : pyIsDigitStr (pySliceCh r 2 4) = true <;>
      simp [zone2VolumeRule, z2vVal, z2vMatch, h1, h2]
  · simp only [Bool.not_eq_true] at h1
    simp [zone2VolumeRule, z2vVal, z2vMatch, h1]

theorem zone2MuteRule_spec (r : String) (su : ReceiverState × Bool) :
    zone2MuteRule r su =
      ({ su.1 with zone2_muted := z2mVal r su.1.zone2_muted },
       su.2 || z2mMatch r) := by
  by_cases h1 : r = "Z2MUON"
  · simp [zone2MuteRule, z2mVal, z2mMatch, h1]
  · by_cases h2 : r = "Z2MUOFF" <;>
      simp [zone2MuteRule, z2mVal, z2mMatch, h1, h2]

theorem updateFields_spec (s : ReceiverState) (r : String) :
    updateFields s r =
      ({ power := powerVal r s.power, volume := volumeVal r s.volume,
         muted := muteVal r s.muted, input_source := inputVal r s.input_source,
         surround_mode := surroundVal r s.surround_mode,
         zone2_power := z2pVal r s.zone2_power,
         zone2_volume := z2vVal r s.zone2_volume,
         zone2_muted := z2mVal r s.zone2_muted,
         last_updated := s.last_updated },
       anyMatch r) := by
  simp only [updateFields, powerRule_spec, volumeRule_spec, muteRule_spec,
    inputRule_spec, surroundRule_spec, zone2PowerRule_spec,
    zone2VolumeRule_spec, zone2MuteRule_spec]
  simp [anyMatch, Bool.or_assoc]

theorem update_spec (s : ReceiverState) (r : String) (n : Nat) :
    update_state_from_response s r n =
      ({ power := powerVal r s.power, volume := volumeVal r s.volume,
         muted := muteVal r s.muted, input_source := inputVal r s.input_source,
         surround_mode := surroundVal r s.surround_mode,
         zone2_power := z2pVal r s.zone2_power,
         zone2_volume := z2vVal r s.zone2_volume,
         zone2_muted := z2mVal r s.zone2_muted,
         last_updated := if anyMatch r then n else s.last_updated },
       anyMatch r) := by
  unfold update_state_from_response
  rw [updateFields_spec]
  by_cases h : anyMatch r = true <;> simp [h]

/-! ## Frame and idempotence facts for the per-field value functions -/

theorem powerVal_frame (r : String) (h : powerMatch r = false) (x : Option Bool) :
    powerVal r x = x := by
  simp only [powerMatch, Bool.or_eq_false_iff, decide_eq_false_iff_not] at h
  simp [powerVal, h.1, h.2]

theorem volumeVal_frame (r : String) (h : mvMatch r = false) (x : Option Nat) :
    volumeVal r x = x := by
  simp [volumeVal, h]

theorem muteVal_frame (r : String) (h : muMatch r = false) (x : Option Bool) :
    muteVal r x = x := by
  simp only [muMatch, Bool.or_eq_false_iff, decide_eq_false_iff_not] at h
  simp [muteVal, h.1, h.2]

theorem inputVal_frame (r : String) (h : siMatch r = false) (x : Option String) :
    inputVal r x = x := by
  simp [inputVal, h]

theorem surroundVal_frame (r : String) (h : msMatch r = false)
    (x : Option String) : surroundVal r x = x := by
  simp [surroundVal, h]

theorem z2pVal_frame (r : String) (h : z2pMatch r = false) (x : Option Bool) :
    z2pVal r x = x := by
  simp only [z2pMatch, Bool.or_eq_false_iff, decide_eq_false_iff_not] at h
  simp [z2pVal, h.1, h.2]

theorem z2vVal_frame (r : String) (h : z2vMatch r = false) (x : Option Nat) :
    z2vVal r x = x := by
  simp [z2vVal, h]

theorem z2mVal_frame (r : String) (h : z2mMatch r = false) (x : Option Bool) :
    z2mVal r x = x := by
  simp only [z2mMatch, Bool.or_eq_false_iff, decide_eq_false_iff_not] at h
  simp [z2mVal, h.1, h.2]

theorem powerVal_idem (r : String) (x : Option Bool) :
    powerVal r (powerVal r x) = powerVal r x := by
  unfold powerVal; split <;> simp_all

theorem volumeVal_idem (r : String) (x : Option Nat) :
    volumeVal r (volumeVal r x) = volumeVal r x := by
  unfold volumeVal; split <;> simp_all

theorem muteVal_idem (r : String) (x : Option Bool) :
    muteVal r (muteVal r x) = muteVal r x := by
  unfold muteVal; split <;> simp_all

theorem inputVal_idem (r : String) (x : Option String) :
    inputVal r (inputVal r x) = inputVal r x := by
  unfold inputVal; split <;> simp_all

theorem surroundVal_idem (r : String) (x : Option String) :
    surroundVal r (surroundVal r x) = surroundVal r x := by
  unfold surroundVal; split <;> simp_all

theorem z2pVal_idem (r : String) (x : Option Bool) :
    z2pVal r (z2pVal r x) = z2pVal r x := by
  unfold z2pVal; split <;> simp_all

theorem z2vVal_idem (r : String) (x : Option Nat) :
    z2vVal r (z2vVal r x) = z2vVal r x := by
  unfold z2vVal; split <;> simp_all

theorem z2mVal_idem (r : String) (x : Option Bool) :
    z2mVal r (z2mVal r x) = z2mVal r x := by
  unfold z2mVal; split <;> simp_all

/-! ## Claim C4: non-matching tokens are a complete no-op -/

/-- C4: for every response token that matches none of the interpreter table
rules (not PWON/PWSTANDBY, not an MV/SI/MS/Z2-prefixed form, not a mute
token), applying it leaves every field of the device state unchanged, does
not advance last_updated, and fires no subscriber notification. -/
theorem nonmatching_token_noop (s : ReceiverState) (n : Nat) (r : String)
    (h1 : r ≠ "PWON") (h2 : r ≠ "PWSTANDBY")
    (h3 : pyStartsWith r "MV" = false)
    (h4 : r ≠ "MUON") (h5 : r ≠ "MUOFF")
    (h6 : pyStartsWith r "SI" = false)
    (h7 : pyStartsWith r "MS" = false)
    (h8 : pyStartsWith r "Z2" = false) :
    update_state_from_response s r n = (s, false) := by
  have hz1 : r ≠ "Z2ON" := by
    intro he; rw [he] at h8; exact absurd h8 (by decide)
  have hz2 : r ≠ "Z2OFF" := by
    intro he; rw [he] at h8; exact absurd h8 (by decide)
  have hz3 : r ≠ "Z2MUON" := by
    intro he; rw [he] at h8; exact absurd h8 (by decide)
  have hz4 : r ≠ "Z2MUOFF" := by
    intro he; rw [he] at h8; exact absurd h8 (by decide)
  have hp : powerMatch r = false := by simp [powerMatch, h1, h2]
  have hv : mvMatch r = false := by simp [mvMatch, h3]
  have hm : muMatch r = false := by simp [muMatch, h4, h5]
  have hsi : siMatch r = false := h6
  have hms : msMatch r = false := h7
  have hz2p : z2pMatch r = false := by simp [z2pMatch, hz1, hz2]
  have hz2v : z2vMatch r = false := by simp [z2vMatch, h8]
  have hz2m : z2mMatch r = false := by simp [z2mMatch, hz3, hz4]
  have ha : anyMatch r = false := by
    simp [anyMatch, hp, hv, hm, hsi, hms, hz2p, hz2v, hz2m]
  rw [update_spec, powerVal_frame r hp, volumeVal_frame r hv,
    muteVal_frame r hm, inputVal_frame r hsi, surroundVal_frame r hms,
    z2pVal_frame r hz2p, z2vVal_frame r hz2v, z2mVal_frame r hz2m, ha]
  simp

theorem nonmatching_token_noop_witness :
    update_state_from_response statePowerOn "QUICK1" 9 = (statePowerOn, false) :=
  nonmatching_token_noop statePowerOn 9 "QUICK1" (by decide) (by decide)
    (by decide) (by decide) (by decide) (by decide) (by decide) (by decide)

/-! ## Claim C5: when the merge stamps last_updated -/

/-- C5 counterexample: with power already known on, applying PWON changes no
field value, yet last_updated advances from 0 to 1 and a notification
fires — the stamp tracks rule matches, not value changes. -/
theorem merge_stamps_without_field_change :
    fieldsEq (update_state_from_response statePowerOn "PWON" 1).1 statePowerOn ∧
    statePowerOn.last_updated = 0 ∧
    (update_state_from_response statePowerOn "PWON" 1).1.last_updated = 1 ∧
    (update_state_from_response statePowerOn "PWON" 1).2 = true := by decide

/-- C5 amended: the merge advances last_updated exactly when at least one
rule matched the token (even if the written value equals the old one), and
overwrites only the fields the token determines, leaving all others
untouched. -/
theorem merge_frame_and_stamp (s : ReceiverState) (r : String) (n : Nat) :
    (update_state_from_response s r n).2 = anyMatch r ∧
    (update_state_from_response s r n).1.last_updated
      = (if anyMatch r then n else s.last_updated) ∧
    (powerMatch r = false →
      (update_state_from_response s r n).1.power = s.power) ∧
    (mvMatch r = false →
      (update_state_from_response s r n).1.volume = s.volume) ∧
    (muMatch r = false →
      (update_state_from_response s r n).1.muted = s.muted) ∧
    (siMatch r = false →
      (update_state_from_response s r n).1.input_source = s.input_source) ∧
    (msMatch r = false →
      (update_state_from_response s r n).1.surround_mode = s.surround_mode) ∧
    (z2pMatch r = false →
      (update_state_from_response s r n).1.zone2_power = s.zone2_power) ∧
    (z2vMatch r = false →
      (update_state_from_response s r n).1.zone2_volume = s.zone2_volume) ∧
    (z2mMatch r = false →
      (update_state_from_response s r n).1.zone2_muted = s.zone2_muted) := by
  rw [update_spec]
  exact ⟨rfl, rfl,
    fun h => powerVal_frame r h s.power,
    fun h => volumeVal_frame r h s.volume,
    fun h => muteVal_frame r h s.muted,
    fun h => inputVal_frame r h s.input_source,
    fun h => surroundVal_frame r h s.surround_mode,
    fun h => z2pVal_frame r h s.zone2_power,
    fun h => z2vVal_frame r h s.zone2_volume,
    fun h => z2mVal_frame r h s.zone2_muted⟩

theorem merge_frame_and_stamp_witness :
    (update_state_from_response initialState "MV10" 7).1.muted
      = initialState.muted :=
  (merge_frame_and_stamp initialState "MV10" 7).2.2.2.2.1 (by decide)

/-! ## Claim C6: merge idempotence -/

/-- C6: applying the same token twice yields a state whose fields are
identical to applying it once; the notification outcome is the same both
times, and when the token matches, last_updated is advanced to the current
time on both applications (the only difference is the timestamp). -/
theorem merge_idempotent (s : ReceiverState) (r : String) (n1 n2 : Nat) :
    (update_state_from_response
        (update_state_from_response s r n1).1 r n2).2
      = (update_state_from_response s r n1).2 ∧
    fieldsEq
      (update_state_from_response (update_state_from_response s r n1).1 r n2).1
      (update_state_from_response s r n1).1 ∧
    ((update_state_from_response s r n1).2 = true →
      (update_state_from_response s r n1).1.last_updated = n1 ∧
      (update_state_from_response
          (update_state_from_response s r n1).1 r n2).1.last_updated = n2) := by
  rw [update_spec s r n1, update_spec _ r n2]
  refine ⟨rfl, ?_, ?_⟩
  · refine ⟨?_, ?_, ?_, ?_, ?_, ?_, ?_, ?_⟩ <;>
      simp [powerVal_idem, volumeVal_idem, muteVal_idem, inputVal_idem,
        surroundVal_idem, z2pVal_idem, z2vVal_idem, z2mVal_idem]
  · intro h
    simp only at h
    constructor <;> simp [h]

theorem merge_idempotent_witness :
    (update_state_from_response
        (update_state_from_response initialState "PWON" 3).1
        "PWON" 5).1.last_updated = 5 :=
  ((merge_idempotent initialState "PWON" 3 5).2.2 (by decide)).2

/-! ## Claim C3: the MV volume rule -/

/-- C3 counterexample: the three-character token MV9 has no character at
position 3 (the slice [2:4] has length 1), so the two characters at
positions 2-3 are not both digits, yet the interpreter sets volume = 9. -/
theorem mv_single_digit_sets_volume :
    (update_state_from_response initialState "MV9" 1).1.volume = some 9 ∧
    strLen "MV9" = 3 ∧ (pySliceCh "MV9" 2 4).length = 1 := by decide

/-- C3 amended: the interpreter sets volume from an MV-prefixed token of
length at least 3 exactly when the slice of positions 2-4 (one or two
characters) is all digits, parsing it as the integer value; MV07 yields
volume = 7, MV09 yields volume = 9, and MV9X produces no volume update. -/
theorem mv_volume_rule_spec (s : ReceiverState) (n : Nat) (r : String) :
    (mvMatch r = true →
      (update_state_from_response s r n).1.volume
        = some (digitsVal (pySliceCh r 2 4))) ∧
    (mvMatch r = false →
      (update_state_from_response s r n).1.volume = s.volume) ∧
    (update_state_from_response initialState "MV07" 1).1.volume = some 7 ∧
    (update_state_from_response initialState "MV09" 1).1.volume = some 9 ∧
    (update_state_from_response initialState "MV9X" 1).1.volume = none := by
  refine ⟨?_, ?_, by decide, by decide, by decide⟩ <;> intro h <;> rw [update_spec]
  · simp [volumeVal, h]
  · exact volumeVal_frame r h s.volume

theorem mv_volume_rule_spec_witness :
    (update_state_from_response initialState "MV42" 3).1.volume
      = some (digitsVal (pySliceCh "MV42" 2 4)) :=
  (mv_volume_rule_spec initialState 3 "MV42").1 (by decide)

/-! ## Claim C10: single-digit MV and Z2 tokens -/

/-- C10: for every 3-character token MVd or Z2d with d a single digit, the
interpreter sets volume (respectively zone2_volume) to the integer value of
that single digit, even though only one digit follows the prefix. -/
theorem single_digit_tokens_set_volume (s : ReceiverState) (n : Nat)
    (c : Char) (h : c.isDigit = true) :
    (update_state_from_response s (String.mk ['M', 'V', c]) n).1.volume
      = some (c.toNat - 48) ∧
    (update_state_from_response s (String.mk ['Z', '2', c]) n).1.zone2_volume
      = some (c.toNat - 48) := by
  have hmv : mvMatch (String.mk ['M', 'V', c]) = true := by
    simp [mvMatch, pyStartsWith, strLen, pySliceCh, pyIsDigitStr, h,
      show "MV".toList = ['M', 'V'] from rfl]
  have hz2 : z2vMatch (String.mk ['Z', '2', c]) = true := by
    simp [z2vMatch, pyStartsWith, strLen, pySliceCh, pyIsDigitStr, h,
      show "Z2".toList = ['Z', '2'] from rfl]
  constructor
  · rw [update_spec]
    simp [volumeVal, hmv, pySliceCh, digitsVal]
  · rw [update_spec]
    simp [z2vVal, hz2, pySliceCh, digitsVal]

theorem single_digit_tokens_set_volume_witness :
    (update_state_from_response initialState
        (String.mk ['M', 'V', '7']) 2).1.volume = some ('7'.toNat - 48) ∧
    (update_state_from_response initialState
        (String.mk ['Z', '2', '7']) 2).1.zone2_volume
      = some ('7'.toNat - 48) :=
  single_digit_tokens_set_volume initialState 2 '7' (by decide)

/-! ## Claim C9: subscriber notification tolerates failing callbacks -/

/-- C9: in every notification pass, a raising callback is caught and logged
and delivery proceeds to every other callback in registration order; the
registry is not modified during or after the pass (the source performs no
removal at all, so in particular no removal happens during the
iteration). -/
theorem notify_delivers_to_all (subs : List Subscriber) :
    (notify_state_update subs).1 = subs.map Subscriber.id ∧
    (notify_state_update subs).2 = subs := by
  refine ⟨?_, rfl⟩
  unfold notify_state_update
  induction subs with
  | nil => rfl
  | cons s rest ih =>
    cases hb : s.behavior <;> simp [notifyLoopCalled, hb] <;> exact ih

/-! ## Claim C1: send_and_wait over multi-token commands -/

theorem toksOfList_cons_empty (c : String) (l : List String)
    (h : pyStrip c = "") : toksOfList (c :: l) = toksOfList l := by
  simp [toksOfList, h]

theorem toksOfList_cons_ne (c : String) (l : List String)
    (h : ¬ pyStrip c = "") : toksOfList (c :: l) = pyStrip c :: toksOfList l := by
  simp [toksOfList, h]

theorem sendAndWaitGo_all_ok (env : Nat → SendOutcome) :
    ∀ (l : List String) (i : Nat) (acc sent : List String),
      (∀ j, j < (toksOfList l).length → (env (i + j)).ok = true) →
      sendAndWaitGo env l i acc sent
        = ((true, sawMsg (acc ++ respList env i (toksOfList l).length)),
           sent ++ toksOfList l) := by
  intro l
  induction l with
  | nil =>
    intro i acc sent _
    simp [sendAndWaitGo, toksOfList, respList]
  | cons c rest ih =>
    intro i acc sent hok
    by_cases hc : pyStrip c = ""
    · have step : sendAndWaitGo env (c :: rest) i acc sent
          = sendAndWaitGo env rest i acc sent := by
        simp [sendAndWaitGo, hc]
      rw [step, toksOfList_cons_empty c rest hc]
      exact ih i acc sent (by rwa [toksOfList_cons_empty c rest hc] at hok)
    · have h0 : (env i).ok = true := by
        have := hok 0 (by rw [toksOfList_cons_ne c rest hc]; simp)
        simpa using this
      have step : sendAndWaitGo env (c :: rest) i acc sent
          = sendAndWaitGo env rest (i + 1)
              (match (env i).resp with
               | some r => if r = "" then acc else acc ++ [r]
               | none => acc)
              (sent ++ [pyStrip c]) := by
        simp [sendAndWaitGo, hc, h0]
      rw [step, toksOfList_cons_ne c rest hc]
      have hok' : ∀ j, j < (toksOfList rest).length →
          (env (i + 1 + j)).ok = true := by
        intro j hj
        have hidx : i + 1 + j = i + (j + 1) := by omega
        rw [hidx]
        exact hok (j + 1)
          (by rw [toksOfList_cons_ne c rest hc]; simpa using Nat.succ_lt_succ hj)
      rw [ih (i + 1) _ _ hok']
      have hresp : (match (env i).resp with
            | some r => if r = "" then acc else acc ++ [r]
            | none => acc) ++ respList env (i + 1) (toksOfList rest).length
          = acc ++ respList env i ((toksOfList rest).length + 1) := by
        cases hr : (env i).resp with
        | none => simp [respList, hr]
        | some r => by_cases hre : r = "" <;> simp [respList, hr, hre]
      rw [hresp]
      simp

theorem sendAndWaitGo_fail (env : Nat → SendOutcome) :
    ∀ (l : List String) (i : Nat) (acc sent : List String) (k : Nat),
      k < (toksOfList l).length → (env (i + k)).ok = false →
      (∀ j, j < k → (env (i + j)).ok = true) →
      sendAndWaitGo env l i acc sent
        = ((false, (env (i + k)).msg), sent ++ (toksOfList l).take (k + 1)) := by
  intro l
  induction l with
  | nil =>
    intro i acc sent k hk _ _
    simp [toksOfList] at hk
  | cons c rest ih =>
    intro i acc sent k hk hbad hgood
    by_cases hc : pyStrip c = ""
    · rw [toksOfList_cons_empty c rest hc] at hk ⊢
      have step : sendAndWaitGo env (c :: rest) i acc sent
          = sendAndWaitGo env rest i acc sent := by
        simp [sendAndWaitGo, hc]
      rw [step]
      exact ih i acc sent k hk hbad hgood
    · rw [toksOfList_cons_ne c rest hc] at hk ⊢
      cases k with
      | zero =>
        have h0 : (env i).ok = false := by simpa using hbad
        have step : sendAndWaitGo env (c :: rest) i acc sent
            = ((false, (env i).msg), sent ++ [pyStrip c]) := by
          simp [sendAndWaitGo, hc, h0]
        rw [step]
        simp
      | succ k' =>
        have h0 : (env i).ok = true := by
          simpa using hgood 0 (Nat.succ_pos k')
        have step : sendAndWaitGo env (c :: rest) i acc sent
            = sendAndWaitGo env rest (i + 1)
                (match (env i).resp with
                 | some r => if r = "" then acc else acc ++ [r]
                 | none => acc)
                (sent ++ [pyStrip c]) := by
          simp [sendAndWaitGo, hc, h0]
        rw [step]
        have hk' : k' < (toksOfList rest).length := by
          simpa using Nat.lt_of_succ_lt_succ hk
        have hbad' : (env (i + 1 + k')).ok = false := by
          have hidx : i + 1 + k' = i + (k' + 1) := by omega
          rw [hidx]; exact hbad
        have hgood' : ∀ j, j < k' → (env (i + 1 + j)).ok = true := by
          intro j hj
          have hidx : i + 1 + j = i + (j + 1) := by omega
          rw [hidx]; exact hgood (j + 1) (Nat.succ_lt_succ hj)
        rw [ih (i + 1) _ _ k' hk' hbad' hgood']
        have hidx : i + 1 + k' = i + (k' + 1) := by omega
        simp [hidx]

/-- C1: send_and_wait splits the command on the newline separator, strips
each segment and drops empty ones, then sends the remaining tokens one at
a time in order, each followed by its own wait-then-read cycle. If every
send succeeds it returns True with the semicolon-joined nonempty responses
(or the generic message when none were read) and the send trace is exactly
the token list; if the k-th send fails, the sequence stops there, later
tokens are never sent, and that failure is returned. The spec example
holds: the command MVUP-newline-newline-MVUP-newline yields exactly the two
tokens MVUP, MVUP. -/
theorem sendAndWait_sequence_spec (command : String) (env : Nat → SendOutcome) :
    ((∀ i, i < (tokensOf command).length → (env i).ok = true) →
      send_and_wait env command
        = ((true, sawMsg (respList env 0 (tokensOf command).length)),
           tokensOf command)) ∧
    (∀ k, k < (tokensOf command).length → (env k).ok = false →
      (∀ i, i < k → (env i).ok = true) →
      send_and_wait env command
        = ((false, (env k).msg), (tokensOf command).take (k + 1))) ∧
    tokensOf "MVUP\n\nMVUP\n" = ["MVUP", "MVUP"] := by
  refine ⟨?_, ?_, by decide⟩
  · intro h
    have := sendAndWaitGo_all_ok env (pySplit command) 0 [] []
      (by intro j hj; simpa using h j hj)
    simpa [send_and_wait, tokensOf] using this
  · intro k hk hbad hgood
    have := sendAndWaitGo_fail env (pySplit command) 0 [] [] k hk
      (by simpa using hbad) (by intro j hj; simpa using hgood j hj)
    simpa [send_and_wait, tokensOf] using this

theorem sendAndWait_sequence_spec_witness :
    send_and_wait envTwoSends "PWON\nMV50"
      = ((true, sawMsg (respList envTwoSends 0 (tokensOf "PWON\nMV50").length)),
         tokensOf "PWON\nMV50") :=
  (sendAndWait_sequence_spec "PWON\nMV50" envTwoSends).1 (by decide)

/-! ## Claim C2: connect retry backoff -/

theorem delaysFrom_length : ∀ (n : Nat) (d : ℚ), (delaysFrom d n).length = n := by
  intro n
  induction n with
  | zero => intro d; rfl
  | succ k ih => intro d; simp [delaysFrom, ih]

theorem min_double_cap (d : ℚ) (i : Nat) :
    min (min (d * 2) MAX_RETRY_DELAY * 2 ^ i) MAX_RETRY_DELAY
      = min (d * 2 ^ (i + 1)) MAX_RETRY_DELAY := by
  have h2 : (1 : ℚ) ≤ 2 ^ i := one_le_pow₀ (by norm_num)
  rcases le_total (d * 2) MAX_RETRY_DELAY with h | h
  · rw [min_eq_left h, pow_succ]
    ring_nf
  · rw [min_eq_right h]
    have hM : (0 : ℚ) < MAX_RETRY_DELAY := by norm_num [MAX_RETRY_DELAY]
    have l1 : MAX_RETRY_DELAY ≤ MAX_RETRY_DELAY * 2 ^ i :=
      le_mul_of_one_le_right hM.le h2
    have l2 : MAX_RETRY_DELAY ≤ d * 2 ^ (i + 1) := by
      have hd2 : (0 : ℚ) ≤ d * 2 := le_trans hM.le h
      calc MAX_RETRY_DELAY ≤ d * 2 := h
        _ = d * 2 * 1 := by ring
        _ ≤ d * 2 * 2 ^ i := mul_le_mul_of_nonneg_left h2 hd2
        _ = d * 2 ^ (i + 1) := by rw [pow_succ]; ring
    rw [min_eq_right l1, min_eq_right l2]

theorem connectGo_spec : ∀ (n m a : Nat) (d : ℚ), m - a = n → a ≤ m →
    connectGo m a d = (m + 1, delaysFrom d n) := by
  intro n
  induction n with
  | zero =>
    intro m a d hn ha
    have hma : a = m := by omega
    subst hma
    have h2 : connectGo a (a + 1) d = (a + 1, []) := by
      rw [connectGo]
      simp
    rw [connectGo]
    simp [h2, delaysFrom]
  | succ k ih =>
    intro m a d hn ha
    have ha2 : a + 1 ≤ m := by omega
    rw [connectGo]
    simp only [ih m (a + 1) (min (d * 2) MAX_RETRY_DELAY) (by omega) ha2,
      dif_pos ha, if_pos ha2]
    simp [delaysFrom]

/-- C2: in a run of connect(retry=True) in which every open attempt fails,
the procedure returns False, makes exactly max_retries + 1 attempts in
total with retry_count equal to that number afterwards, sleeps exactly
max_retries times (so the first attempt is immediate), and the delay slept
before attempt i+1 is min(INITIAL_RETRY_DELAY * 2 ^ i, MAX_RETRY_DELAY),
attempts being numbered from 0. -/
theorem connect_backoff_spec (m : Nat) :
    (connectAllFailRun m).1 = false ∧
    (connectAllFailRun m).2.1 = m + 1 ∧
    (connectAllFailRun m).2.2.length = m ∧
    (∀ i, i < m → (connectAllFailRun m).2.2.get? i
      = some (min (INITIAL_RETRY_DELAY * 2 ^ i) MAX_RETRY_DELAY)) := by
  have hrun : connectGo m 0 INITIAL_RETRY_DELAY
      = (m + 1, delaysFrom INITIAL_RETRY_DELAY m) :=
    connectGo_spec m m 0 INITIAL_RETRY_DELAY (by omega) (Nat.zero_le m)
  have hget : ∀ (n : Nat) (d : ℚ), d ≤ MAX_RETRY_DELAY → ∀ i, i < n →
      (delaysFrom d n).get? i = some (min (d * 2 ^ i) MAX_RETRY_DELAY) := by
    intro n
    induction n with
    | zero => intro d _ i hi; exact absurd hi (Nat.not_lt_zero i)
    | succ k ih =>
      intro d hd i hi
      cases i with
      | zero => simp [delaysFrom, min_eq_left hd]
      | succ j =>
        have step : (delaysFrom d (k + 1)).get? (j + 1)
            = (delaysFrom (min (d * 2) MAX_RETRY_DELAY) k).get? j := rfl
        rw [step, ih (min (d * 2) MAX_RETRY_DELAY) (min_le_right _ _) j
          (by omega), min_double_cap]
  refine ⟨rfl, ?_, ?_, ?_⟩
  · simp [connectAllFailRun, hrun]
  · simp [connectAllFailRun, hrun, delaysFrom_length]
  · intro i hi
    simp only [connectAllFailRun, hrun]
    exact hget m INITIAL_RETRY_DELAY
      (by norm_num [INITIAL_RETRY_DELAY, MAX_RETRY_DELAY]) i hi

theorem connect_backoff_spec_witness :
    (connectAllFailRun 3).2.2.get? 2
      = some (min (INITIAL_RETRY_DELAY * 2 ^ 2) MAX_RETRY_DELAY) :=
  (connect_backoff_spec 3).2.2.2 2 (by decide)

/-! ## Claim C7: transport read_until -/

theorem headMatches_append (ndl : List Char) :
    ∀ (p r : List Char), headMatches ndl p = true →
      headMatches ndl (p ++ r) = true := by
  induction ndl with
  | nil => intro p r _; rfl
  | cons a as ih =>
    intro p r hp
    cases p with
    | nil => simp [headMatches] at hp
    | cons b bs =>
      simp [headMatches] at hp ⊢
      exact ⟨hp.1, ih bs r hp.2⟩

theorem isSubstring_append (ndl : List Char) :
    ∀ (p r : List Char), isSubstring ndl p = true →
      isSubstring ndl (p ++ r) = true := by
  intro p
  induction p with
  | nil =>
    intro r hp
    cases ndl with
    | nil => cases r <;> simp [isSubstring, headMatches]
    | cons a as => simp [isSubstring, headMatches] at hp
  | cons c t ih =>
    intro r hp
    simp only [isSubstring, Bool.or_eq_true] at hp
    rcases hp with hp | hp
    · have hm := headMatches_append ndl (c :: t) r hp
      simp only [List.cons_append, isSubstring, Bool.or_eq_true]
      exact Or.inl (by simpa using hm)
    · simp only [List.cons_append, isSubstring, Bool.or_eq_true]
      exact Or.inr (ih r hp)

theorem buf_no_delim (delim buf ext : List Char)
    (h : isSubstring delim (buf ++ ext) = false) :
    isSubstring delim buf = false := by
  cases hb : isSubstring delim buf with
  | false => rfl
  | true => exact absurd (isSubstring_append delim buf ext hb) (by simp [h])

theorem loop_timeout : ∀ (events : List RecvEvent) (delim buf : List Char),
    isSubstring delim (buf ++ chunksBefore events) = false →
    (firstSignal events = none ∨
      firstSignal events = some RecvEvent.timeoutEv) →
    read_until_loop delim events buf = ReadResult.timeoutError := by
  intro events
  induction events with
  | nil =>
    intro delim buf h _
    have hb : isSubstring delim buf = false := by simpa [chunksBefore] using h
    simp [read_until_loop, hb]
  | cons e rest ih =>
    intro delim buf h hs
    cases e with
    | chunk d =>
      have h' : isSubstring delim ((buf ++ d) ++ chunksBefore rest) = false := by
        simpa [chunksBefore, List.append_assoc] using h
      have hb : isSubstring delim buf = false :=
        buf_no_delim delim buf (d ++ chunksBefore rest)
          (by simpa [List.append_assoc] using h')
      simp only [read_until_loop, hb, Bool.false_eq_true, if_false]
      exact ih delim (buf ++ d) h' (by simpa [firstSignal] using hs)
    | eofEv =>
      rcases hs with hs | hs <;> simp [firstSignal] at hs
    | timeoutEv =>
      have hb : isSubstring delim buf = false := by simpa [chunksBefore] using h
      simp [read_until_loop, hb]

theorem loop_eof : ∀ (events : List RecvEvent) (delim buf : List Char),
    isSubstring delim (buf ++ chunksBefore events) = false →
    firstSignal events = some RecvEvent.eofEv →
    read_until_loop delim events buf
      = ReadResult.ok (buf ++ chunksBefore events) := by
  intro events
  induction events with
  | nil => intro delim buf _ hs; simp [firstSignal] at hs
  | cons e rest ih =>
    intro delim buf h hs
    cases e with
    | chunk d =>
      have h' : isSubstring delim ((buf ++ d) ++ chunksBefore rest) = false := by
        simpa [chunksBefore, List.append_assoc] using h
      have hb : isSubstring delim buf = false :=
        buf_no_delim delim buf (d ++ chunksBefore rest)
          (by simpa [List.append_assoc] using h')
      have hrec := ih delim (buf ++ d) h' (by simpa [firstSignal] using hs)
      simp [read_until_loop, hb, hrec, chunksBefore, List.append_assoc]
    | eofEv =>
      simp [read_until_loop, chunksBefore]
    | timeoutEv =>
      simp [firstSignal] at hs

theorem loop_found : ∀ (events : List RecvEvent) (delim buf : List Char),
    isSubstring delim (buf ++ chunksBefore events) = true →
    ∃ out ext,
      read_until_loop delim events buf = ReadResult.ok out ∧
      isSubstring delim out = true ∧
      buf ++ chunksBefore events = out ++ ext ∧
      ∃ pre, out = buf ++ pre := by
  intro events
  induction events with
  | nil =>
    intro delim buf h
    have hb : isSubstring delim buf = true := by simpa [chunksBefore] using h
    exact ⟨buf, [], by simp [read_until_loop, hb], hb,
      by simp [chunksBefore], [], by simp⟩
  | cons e rest ih =>
    intro delim buf h
    cases hb : isSubstring delim buf with
    | true =>
      cases e with
      | chunk d =>
        exact ⟨buf, chunksBefore (RecvEvent.chunk d :: rest),
          by simp [read_until_loop, hb], hb, rfl, [], by simp⟩
      | eofEv =>
        exact ⟨buf, chunksBefore (RecvEvent.eofEv :: rest),
          by simp [read_until_loop], hb, rfl, [], by simp⟩
      | timeoutEv =>
        exact ⟨buf, chunksBefore (RecvEvent.timeoutEv :: rest),
          by simp [read_until_loop, hb], hb, rfl, [], by simp⟩
    | false =>
      cases e with
      | chunk d =>
        obtain ⟨out, ext, h1, h2, h3, pre, h4⟩ :=
          ih delim (buf ++ d) (by simpa [chunksBefore, List.append_assoc] using h)
        refine ⟨out, ext, ?_, h2, ?_, d ++ pre, ?_⟩
        · simp [read_until_loop, hb, h1]
        · simpa [chunksBefore, List.append_assoc] using h3
        · simp [h4, List.append_assoc]
      | eofEv =>
        exact absurd (by simpa [chunksBefore] using h) (by simp [hb])
      | timeoutEv =>
        exact absurd (by simpa [chunksBefore] using h) (by simp [hb])

/-- C7 counterexample: with the session open, a peer close (recv returns an
empty chunk) before any delimiter makes read_until return the partial
buffer as a normal result, not a ConnectionError. -/
theorem peer_close_returns_partial :
    read_until true [Char.ofNat 13]
        [RecvEvent.chunk ['A', 'B'], RecvEvent.eofEv]
      = ReadResult.ok ['A', 'B'] ∧
    ReadResult.ok ['A', 'B'] ≠ ReadResult.connectionError := by decide

/-- C7 amended: read_until fails with ConnectionError when the client is
not connected; it fails with TimeoutError when no delimiter has arrived by
the time a recv times out (or no further data arrives in the window); when
the peer closes before a delimiter arrives it returns the partial buffer
accumulated so far as a normal result rather than an error; and when a
delimiter does arrive it returns all bytes read up to that iteration,
including the delimiter. -/
theorem read_until_spec (delim : List Char) (events : List RecvEvent) :
    read_until false delim events = ReadResult.connectionError ∧
    (isSubstring delim (chunksBefore events) = false →
      ((firstSignal events = none ∨
          firstSignal events = some RecvEvent.timeoutEv) →
        read_until true delim events = ReadResult.timeoutError) ∧
      (firstSignal events = some RecvEvent.eofEv →
        read_until true delim events = ReadResult.ok (chunksBefore events))) ∧
    (isSubstring delim (chunksBefore events) = true →
      ∃ out ext, read_until true delim events = ReadResult.ok out ∧
        isSubstring delim out = true ∧ chunksBefore events = out ++ ext) := by
  refine ⟨rfl, ?_, ?_⟩
  · intro h
    constructor
    · intro hs
      have := loop_timeout events delim [] (by simpa using h) hs
      simpa [read_until] using this
    · intro hs
      have := loop_eof events delim [] (by simpa using h) hs
      simpa [read_until] using this
  · intro h
    obtain ⟨out, ext, h1, h2, h3, _⟩ :=
      loop_found events delim [] (by simpa using h)
    exact ⟨out, ext, by simpa [read_until] using h1, h2, by simpa using h3⟩

theorem read_until_spec_witness :
    read_until true [Char.ofNat 13] [RecvEvent.timeoutEv]
      = ReadResult.timeoutError :=
  ((read_until_spec [Char.ofNat 13] [RecvEvent.timeoutEv]).2.1
    (by decide)).1 (by decide)

/-! ## Claim C8: read_response and timeouts -/

/-- C8 counterexample: in the sync controller a read timeout lands in the
generic exception handler, which clears the connection: the call yields
None but the controller is torn down to disconnected. -/
theorem sync_timeout_clears_connection :
    (read_response_sync ⟨true, false, true⟩ ReadAttempt.timeoutErr).1 = none ∧
    (read_response_sync ⟨true, false, true⟩
        ReadAttempt.timeoutErr).2.connected = false := by decide

/-- C8 amended: read_response returns None whenever the controller is not
connected (both variants), and a read timeout yields None as a normal
no-data outcome and is never surfaced as a command failure; the async
controller leaves the connection intact on timeout, while the sync
controller catches the timeout in its generic exception handler and marks
itself disconnected. -/
theorem read_response_timeout_spec (c : ControllerSt) (att : ReadAttempt) :
    (c.connected = false →
      read_response_sync c att = (none, c) ∧
      read_response_async c att = (none, c)) ∧
    (c.connected = true → c.debug_mode = false → c.hasConnection = true →
      read_response_async c ReadAttempt.timeoutErr = (none, c) ∧
      read_response_sync c ReadAttempt.timeoutErr
        = (none, { c with connected := false, hasConnection := false })) := by
  constructor
  · intro h
    constructor <;> simp [read_response_sync, read_response_async, h]
  · intro h1 h2 h3
    constructor <;> simp [read_response_sync, read_response_async, h1, h2, h3]

theorem read_response_timeout_spec_witness :
    read_response_async ⟨true, false, true⟩ ReadAttempt.timeoutErr
      = (none, ⟨true, false, true⟩) :=
  ((read_response_timeout_spec ⟨true, false, true⟩
      ReadAttempt.timeoutErr).2 rfl rfl rfl).1

end AVRDisco
